import Mathlib

/-!
Shallow embedding of the Goflet uploader plugin (src/plugins/uploader/goflet.ts)
of the PicGo-Core repository, together with theorems settling the frozen claims
about it.

Strings are modelled as Lean String values; the character-level operations the
plugin performs (regex replacements, query-string handling, path joining) are
implemented structurally over the underlying character lists so that concrete
runs reduce inside the kernel.  External collaborators (the signing primitive,
the HTTP transport, the i18n lookup, the MIME lookup, the base64 decoder, and
the millisecond clock behind two separate reads of the current time) are
supplied through an explicit environment record; the clock is threaded through
the code as a read counter, one increment per read of the current time.
-/

namespace Goflet

/-! ## Character-list utilities -/

/-- Split a character list at every occurrence of the character c.
    Mirrors the splitting used for query strings and path segments. -/
def splitOnCharL (c : Char) : List Char → List (List Char)
  | [] => [[]]
  | x :: xs =>
    let r := splitOnCharL c xs
    if x = c then [] :: r
    else
      match r with
      | h :: t => (x :: h) :: t
      | [] => [[x]]

/-- Interleave a separator between the elements of a list of character lists. -/
def intercalateL (sep : List Char) : List (List Char) → List Char
  | [] => []
  | [x] => x
  | x :: y :: xs => x ++ sep ++ intercalateL sep (y :: xs)

/-- Split a query-string segment at the first equality sign; the segment has
    no equality sign at all when the second component comes back empty. -/
def splitFirstEq : List Char → List Char × List Char
  | [] => ([], [])
  | c :: rest =>
    if c = '=' then ([], rest)
    else
      let (n, v) := splitFirstEq rest
      (c :: n, v)

/-- Numeric value of a hexadecimal digit character, if any. -/
def hexVal (c : Char) : Option Nat :=
  if '0' ≤ c ∧ c ≤ '9' then some (c.toNat - 48)
  else if 'A' ≤ c ∧ c ≤ 'F' then some (c.toNat - 55)
  else if 'a' ≤ c ∧ c ≤ 'f' then some (c.toNat - 87)
  else none

/-- Uppercase hexadecimal digit for a value below 16. -/
def hexDigit (n : Nat) : Char :=
  if n < 10 then Char.ofNat (48 + n) else Char.ofNat (55 + n)

/-- Percent-decoding of a character list; an invalid escape is kept verbatim,
    as in the WHATWG urlencoded parser (ASCII code points). -/
def percentDecodeL : List Char → List Char
  | [] => []
  | '%' :: a :: b :: rest =>
    match hexVal a, hexVal b with
    | some x, some y => Char.ofNat (16 * x + y) :: percentDecodeL rest
    | _, _ => '%' :: percentDecodeL (a :: b :: rest)
  | c :: rest => c :: percentDecodeL rest

/-- application/x-www-form-urlencoded decoding: plus becomes space, then
    percent-decoding. -/
def formDecodeL (l : List Char) : List Char :=
  percentDecodeL (l.map fun c => if c = '+' then ' ' else c)

/-- application/x-www-form-urlencoded encoding of one character
    (ASCII code points). -/
def formEncodeChar (c : Char) : List Char :=
  if c = ' ' then ['+']
  else if c.isAlphanum ∨ c = '*' ∨ c = '-' ∨ c = '.' ∨ c = '_' then [c]
  else ['%', hexDigit (c.toNat / 16), hexDigit (c.toNat % 16)]

/-- application/x-www-form-urlencoded encoding of a string. -/
def formEncode (s : String) : String :=
  ⟨s.data.flatMap formEncodeChar⟩

/-! ## The replacements performed with regular expressions in the source -/

/-- Replace every backslash by a forward slash (the global regex replacement
    used throughout the plugin). -/
def replaceBSL (l : List Char) : List Char :=
  l.map fun c => if c = '\\' then '/' else c

/-- String version of the global backslash replacement. -/
def replaceBackslashes (s : String) : String :=
  ⟨replaceBSL s.data⟩

/-- Remove a single leading slash, if present (the anchored regex
    replacement of one leading slash by the empty string). -/
def stripLeadSlash (l : List Char) : List Char :=
  match l with
  | [] => []
  | c :: xs => if c = '/' then xs else c :: xs

/-- Remove a single trailing slash, if present (the anchored regex
    replacement of one trailing slash by the empty string). -/
def stripTrailSlash : List Char → List Char
  | [] => []
  | [c] => if c = '/' then [] else [c]
  | c :: c2 :: xs => c :: stripTrailSlash (c2 :: xs)

/-- Line 77 of goflet.ts: backslashes to slashes, then one leading slash
    removed, then one trailing slash removed. -/
def canonBasePathL (l : List Char) : List Char :=
  stripTrailSlash (stripLeadSlash (replaceBSL l))

/-- String version of the base-path normalisation of line 77. -/
def canonBasePath (s : String) : String :=
  ⟨canonBasePathL s.data⟩

/-! ## Node path.join (posix semantics) -/

/-- Segment normalisation stack of Node path normalisation: empty and
    current-directory segments are dropped, a parent segment pops the stack
    (kept at the front of a relative path, dropped at the root of an
    absolute one). -/
def normStack (isAbs : Bool) (segs : List (List Char)) : List (List Char) :=
  (segs.foldl
    (fun stack seg =>
      if seg = [] ∨ seg = ['.'] then stack
      else if seg = ['.', '.'] then
        match stack with
        | [] => if isAbs then [] else [['.', '.']]
        | top :: rest => if top = ['.', '.'] then seg :: stack else rest
      else seg :: stack)
    []).reverse

/-- Node posix path normalisation on character lists. -/
def posixNormalizeL (l : List Char) : List Char :=
  match l with
  | [] => ['.']
  | _ =>
    let isAbs : Bool := match l with | '/' :: _ => true | _ => false
    let trail : Bool := match l.getLast? with | some '/' => true | _ => false
    let core := intercalateL ['/'] (normStack isAbs (splitOnCharL '/' l))
    if core = [] then
      if isAbs then ['/'] else if trail then ['.', '/'] else ['.']
    else
      let core := if trail then core ++ ['/'] else core
      if isAbs then '/' :: core else core

/-- Node posix path.join: drop empty parts, join with a slash, normalise. -/
def pathJoin (parts : List String) : String :=
  let joined := intercalateL ['/'] ((parts.map String.data).filter (· ≠ []))
  if joined = [] then "." else ⟨posixNormalizeL joined⟩

/-! ## URLSearchParams -/

/-- Parsing of an urlencoded query string into its ordered name/value pairs,
    as the URLSearchParams constructor does: a single leading question mark is
    dropped, the string is split on ampersands, empty segments are skipped,
    each segment is split at its first equality sign, and both halves are
    form-decoded. -/
def parseSearchParams (s : String) : List (String × String) :=
  let l := match s.data with
    | '?' :: rest => rest
    | l => l
  ((splitOnCharL '&' l).filter (· ≠ [])).map fun seg =>
    let (n, v) := splitFirstEq seg
    (⟨formDecodeL n⟩, ⟨formDecodeL v⟩)

/-- URLSearchParams.set: replace the value of the first pair carrying the
    name, drop every later pair with that name, append when absent. -/
def searchParamsSet : List (String × String) → String → String → List (String × String)
  | [], n, v => [(n, v)]
  | (k, w) :: rest, n, v =>
    if k = n then (n, v) :: rest.filter (fun p => p.1 ≠ n)
    else (k, w) :: searchParamsSet rest n v

/-- URLSearchParams.toString: form-encode every name and value and join the
    pairs with ampersands. -/
def searchParamsToString (ps : List (String × String)) : String :=
  ⟨intercalateL ['&'] (ps.map fun p => (formEncode p.1).data ++ '=' :: (formEncode p.2).data)⟩

/-- Plain-object accumulation of the forEach loop of lines 27-30: a repeated
    name keeps its first position and takes its latest value. -/
def objFromPairs (ps : List (String × String)) : List (String × String) :=
  ps.foldl
    (fun acc p =>
      if acc.any (fun q => q.1 = p.1) then
        acc.map (fun q => if q.1 = p.1 then (q.1, p.2) else q)
      else acc ++ [p])
    []

/-- Hostname of a URL (scheme stripped, then everything up to the first
    delimiter), sufficient for the http(s) endpoints this plugin receives. -/
def urlHostname (s : String) : String :=
  let afterScheme :=
    match go s.data with
    | some r => r
    | none => s.data
  ⟨afterScheme.takeWhile fun c => c ≠ '/' ∧ c ≠ ':' ∧ c ≠ '?' ∧ c ≠ '#'⟩
where
  /-- Find the part of the character list after the first scheme separator. -/
  go : List Char → Option (List Char)
    | [] => none
    | x :: xs =>
      if (x :: xs).take 3 = [':', '/', '/'] then some ((x :: xs).drop 3)
      else go xs

/-! ## Data model -/

/-- The picBed.goflet configuration record (IGofletConfig). -/
structure IGofletConfig where
  endpoint : String
  path : String
  jwtSecret : String
  jwtAlgorithm : String
  jwtIssuer : String
  defaultOptions : String
deriving DecidableEq

/-- The JWT header built on lines 11-14. -/
structure JwtHeader where
  alg : String
  typ : String
deriving DecidableEq

/-- One permission entry of the token payload; the query field is present
    only for retrieval tokens. -/
structure Permission where
  path : String
  methods : List String
  query : Option (List (String × String))
deriving DecidableEq

/-- The token payload of lines 15-36. -/
structure JwtPayload where
  iss : String
  iat : Nat
  nbf : Nat
  permissions : List Permission
deriving DecidableEq

/-- One element of ctx.output.  A missing file name is the empty string
    (both are falsy in the guard that uses it); buffer and base64 carry
    their optional JavaScript presence explicitly. -/
structure Img where
  fileName : String
  buffer : Option (List Nat)
  base64Image : Option String
  imgUrl : Option String
deriving DecidableEq

/-- The multipart file part of the upload request descriptor. -/
structure FormDataFile where
  value : Option (List Nat)
  filename : String
  contentType : Option String
deriving DecidableEq

/-- The request descriptor built by postOptions (lines 46-69). -/
structure ReqOptions where
  method : String
  url : String
  host : String
  authorization : String
  contentType : String
  userAgent : String
  file : FormDataFile
  resolveWithFullResponse : Bool
deriving DecidableEq

/-- Observable outcome of JSON.parse on a response body: either the parse
    raises, or it yields a value whose error field is the given optional
    string (none when the field is absent). -/
inductive JsonParseResult where
  | fail
  | ok (error : Option String)
deriving DecidableEq

/-- A response body.  A gateway body is a string, abstracted by what
    JSON.parse observes on it.  The synthetic body built in the transport
    catch of lines 92-99 is a plain object holding a message and the error;
    JSON.parse of a non-string coerces it to a bracketed object tag, which
    is never valid JSON, so parsing it always raises. -/
inductive RespBody where
  | str (parsed : JsonParseResult)
  | errObj (msg : String) (err : String)
deriving DecidableEq

/-- JSON.parse on a response body, at the level of its observables. -/
def jsonParse : RespBody → JsonParseResult
  | .str p => p
  | .errObj _ _ => .fail

/-- A transport response: status code plus body. -/
structure Response where
  statusCode : Nat
  body : RespBody
deriving DecidableEq

/-- External collaborators of the plugin.  sign is the jwt.sign primitive
    (none models a raised error); clock gives the millisecond value returned
    by the successive reads of the current time, one index per read; request
    is the HTTP transport (error models a raised transport exception);
    translate is the i18n lookup; mimeLookup is the MIME-type lookup;
    base64Decode is the byte decoding of a base64 string. -/
structure Env where
  sign : JwtPayload → String → JwtHeader → String → Option String
  clock : Nat → Nat
  request : ReqOptions → Except String Response
  translate : String → String
  mimeLookup : String → Option String
  base64Decode : String → List Nat

/-! ## generateJWT (lines 8-44) -/

/-- The token payload of lines 9-36, with the two reads of the current time
    (lines 17 and 18) passed in explicitly as milliseconds t1 and t2. -/
def mkJwtPayload (options : IGofletConfig) (t1 t2 : Nat) (fileName0 : String)
    (upload : Bool) : JwtPayload :=
  let fileName := replaceBackslashes fileName0
  let basePath := options.path
  { iss := options.jwtIssuer
    iat := t1 / 1000
    nbf := t2 / 1000
    permissions :=
      if upload then
        [{ path := replaceBackslashes (pathJoin ["/file/", basePath, fileName])
           methods := ["POST"]
           query := none }]
      else
        [{ path := replaceBackslashes (pathJoin ["/api/image/", basePath, fileName])
           methods := ["GET"]
           query := some (objFromPairs (parseSearchParams options.defaultOptions)) }] }

/-- Lines 37-43: sign the payload; a failure of the signing primitive is
    caught and the empty string returned in its place, so the function
    never raises (it is total). -/
def genToken (env : Env) (options : IGofletConfig) (t1 t2 : Nat)
    (fileName : String) (upload : Bool) : String :=
  let header : JwtHeader := { alg := options.jwtAlgorithm, typ := "JWT" }
  match env.sign (mkJwtPayload options t1 t2 fileName upload) options.jwtSecret
      header options.jwtAlgorithm with
  | some tok => tok
  | none => ""

/-- generateJWT with the clock threaded as a read counter: the call reads
    the current time at indices k and k+1 and hands back the next unused
    index alongside the token. -/
def generateJWT (env : Env) (options : IGofletConfig) (k : Nat)
    (fileName : String) (upload : Bool) : String × Nat :=
  (genToken env options (env.clock k) (env.clock (k + 1)) fileName upload, k + 2)

/-! ## postOptions (lines 46-69) -/

/-- The upload request descriptor. -/
def postOptions (env : Env) (options : IGofletConfig) (fileName jwtToken : String)
    (image : Option (List Nat)) : ReqOptions :=
  let filePath := options.path
  { method := "POST"
    url := options.endpoint ++ "/file/" ++ replaceBackslashes (pathJoin [filePath, fileName])
    host := urlHostname options.endpoint
    authorization := "Bearer " ++ jwtToken
    contentType := "multipart/form-data"
    userAgent := "PicGo"
    file := { value := image
              filename := fileName
              contentType := env.mimeLookup fileName }
    resolveWithFullResponse := true }

/-! ## handle (lines 71-126) -/

/-- JavaScript truthiness of the optional base64 field: present and
    nonempty. -/
def base64Truthy : Option String → Bool
  | some s => s ≠ ""
  | none => false

/-- Lines 85-88: start from the buffer; when it is absent and a base64
    string is present, decode the base64 string into bytes.  (Within the
    loop the guard of line 79 has already required a buffer, which makes
    the decoding branch unreachable there.) -/
def resolveImage (env : Env) (img : Img) : Option (List Nat) :=
  let image := img.buffer
  if image.isNone && base64Truthy img.base64Image then
    some (env.base64Decode (img.base64Image.getD ""))
  else image

/-- Lines 90-100: run the transport; a raised transport exception is caught
    and mapped to a synthetic 400 response whose body is a plain object
    holding the translated authentication-failure message and the error. -/
def transportResult (env : Env) (reqOpts : ReqOptions) : Response :=
  match env.request reqOpts with
  | .ok r => r
  | .error err => { statusCode := 400, body := .errObj (env.translate "AUTH_FAILED") err }

/-- JavaScript b?.error || message: the field value unless it is absent or
    the empty string (falsy), in which case the fallback message. -/
def jsOrElse (e : Option String) (msg : String) : String :=
  match e with
  | some s => if s = "" then msg else s
  | none => msg

/-- What went wrong inside the try block of lines 102-118: either an Error
    deliberately thrown with a message, or a raised JSON.parse failure. -/
inductive InnerErr where
  | thrownMsg (msg : String)
  | parseError
deriving DecidableEq

/-- The try block of lines 102-118, for one item whose transport response is
    res; k is the next unused clock-read index.  On a 201 the item is
    finalised: both payload fields are cleared and the retrieval URL is
    assembled from the endpoint, the canonical base path pc, the
    backslash-normalised file name, and the default query parameters with the
    token entry set to a freshly generated retrieval token.  On a 400 or any
    other status the body is parsed and an error thrown with its error field
    or the generic translated message. -/
def interpretResponse (env : Env) (options : IGofletConfig) (pc : String) (k : Nat)
    (res : Response) (img : Img) : Except InnerErr (Img × Nat) :=
  if res.statusCode = 400 then
    match jsonParse res.body with
    | .fail => .error .parseError
    | .ok e => .error (.thrownMsg (jsOrElse e (env.translate "AUTH_FAILED")))
  else if res.statusCode = 201 then
    let img := { img with base64Image := none, buffer := none }
    let baseUrl := options.endpoint ++ "/api/image/" ++ pc ++ "/" ++ replaceBackslashes img.fileName
    let searchParams := parseSearchParams options.defaultOptions
    let (visitJwt, k) := generateJWT env options k img.fileName false
    let searchParams := searchParamsSet searchParams "token" visitJwt
    .ok ({ img with imgUrl := some (baseUrl ++ "?" ++ searchParamsToString searchParams) }, k)
  else
    match jsonParse res.body with
    | .fail => .error .parseError
    | .ok e => .error (.thrownMsg (jsOrElse e (env.translate "SERVER_ERROR")))

/-- How the handle function ends: an Error propagated out, the literal
    boolean false of line 83, or the context handed back on line 125. -/
inductive HandleRes where
  | thrown (msg : String)
  | returnedFalse
  | returnedCtx
deriving DecidableEq

/-- The item loop of lines 78-124.  The state carried along is the list of
    transport requests attempted so far and the clock-read counter.  The
    result holds the outcome, the final item list (items mutated on success
    keep their mutations even when a later item aborts the batch), the
    attempted transport requests, and the final counter.  A caught inner
    error is re-thrown as the translated generic server-error message
    (lines 119-122). -/
def handleLoop (env : Env) (options : IGofletConfig) (pc : String) :
    List Img → List ReqOptions → Nat → HandleRes × List Img × List ReqOptions × Nat
  | [], calls, _k => (.returnedCtx, [], calls, _k)
  | img :: rest, calls, k =>
    if (img.fileName != "") && img.buffer.isSome then
      let (jwtToken, k₁) := generateJWT env options k img.fileName true
      if jwtToken = "" then (.returnedFalse, img :: rest, calls, k₁)
      else
        let image := resolveImage env img
        let reqOpts := postOptions env options img.fileName jwtToken image
        let res := transportResult env reqOpts
        let calls₁ := calls ++ [reqOpts]
        match interpretResponse env options pc k₁ res img with
        | .ok (img₂, k₂) =>
          let t := handleLoop env options pc rest calls₁ k₂
          (t.1, img₂ :: t.2.1, t.2.2.1, t.2.2.2)
        | .error _ => (.thrown (env.translate "SERVER_ERROR"), img :: rest, calls₁, k₁)
    else
      let t := handleLoop env options pc rest calls k
      (t.1, img :: t.2.1, t.2.2.1, t.2.2.2)

/-- Lines 71-126: missing configuration throws immediately; otherwise the
    base path is normalised once (line 77) and the loop is run over the
    output items with a fresh clock counter and no attempted requests. -/
def handle (env : Env) (gofletOptions : Option IGofletConfig) (output : List Img) :
    HandleRes × List Img × List ReqOptions × Nat :=
  match gofletOptions with
  | none => (.thrown "Can't find goflet options", output, [], 0)
  | some opts => handleLoop env opts (canonBasePath opts.path) output [] 0

/-! ## Concrete fixtures used by witnesses and counterexamples -/

/-- A small concrete configuration. -/
def testConfig : IGofletConfig :=
  { endpoint := "http://e", path := "imgs", jwtSecret := "s",
    jwtAlgorithm := "HS256", jwtIssuer := "i", defaultOptions := "w=1" }

/-- Environment whose transport always answers 201 and whose signer always
    succeeds with the token "tok". -/
def envOk : Env :=
  { sign := fun _ _ _ _ => some "tok"
    clock := fun _ => 1700000000000
    request := fun _ => .ok { statusCode := 201, body := .str .fail }
    translate := fun key => key
    mimeLookup := fun _ => some "image/png"
    base64Decode := fun _ => [] }

/-- Environment whose transport answers 400 with a parseable body carrying
    the error field "bad signature" for the file b.png, and 201 otherwise. -/
def env400 : Env :=
  { envOk with
    request := fun req =>
      if req.file.filename = "b.png" then
        .ok { statusCode := 400, body := .str (.ok (some "bad signature")) }
      else .ok { statusCode := 201, body := .str .fail } }

/-- Environment whose transport always raises. -/
def envErr : Env :=
  { envOk with request := fun _ => .error "ECONNRESET" }

/-- Environment whose transport always answers 400 with a parseable body
    that has no error field. -/
def env400none : Env :=
  { envOk with request := fun _ => .ok { statusCode := 400, body := .str (.ok none) } }

/-- Environment whose signing primitive always fails. -/
def envSignFail : Env :=
  { envOk with sign := fun _ _ _ _ => none }

/-- Environment whose signing primitive succeeds exactly on payloads without
    a query constraint (so upload tokens are issued and retrieval tokens
    fail). -/
def envRetrieveFail : Env :=
  { envOk with
    sign := fun p _ _ _ =>
      if p.permissions.all (fun pm => pm.query.isNone) then some "uptok" else none }

/-- A batch item holding a buffer. -/
def imgA : Img := { fileName := "a.png", buffer := some [1], base64Image := none, imgUrl := none }

/-- A second batch item holding a buffer. -/
def imgB : Img := { fileName := "b.png", buffer := some [2], base64Image := none, imgUrl := none }

/-- A third batch item holding a buffer. -/
def imgC : Img := { fileName := "c.png", buffer := some [3], base64Image := none, imgUrl := none }

/-- A batch item holding only a base64 payload and no buffer. -/
def imgBase64 : Img :=
  { fileName := "a.png", buffer := none, base64Image := some "aGVsbG8=", imgUrl := none }

/-- A concrete mixed-separator base path without doubled boundary slashes. -/
def mixedPath : String := "/img\\a/"

/-! ## Unfolding lemmas for the item loop -/

/-- One unfolding of the loop on a nonempty item list, with the clock reads,
    the request construction and the response interpretation spelled out. -/
lemma handleLoop_cons (env : Env) (opts : IGofletConfig) (pc : String) (img : Img)
    (rest : List Img) (calls : List ReqOptions) (k : Nat) :
    handleLoop env opts pc (img :: rest) calls k =
      if (img.fileName != "") && img.buffer.isSome then
        if genToken env opts (env.clock k) (env.clock (k + 1)) img.fileName true = "" then
          (.returnedFalse, img :: rest, calls, k + 2)
        else
          match interpretResponse env opts pc (k + 2)
              (transportResult env (postOptions env opts img.fileName
                (genToken env opts (env.clock k) (env.clock (k + 1)) img.fileName true)
                (resolveImage env img))) img with
          | .ok (img₂, k₂) =>
            ((handleLoop env opts pc rest
                (calls ++ [postOptions env opts img.fileName
                  (genToken env opts (env.clock k) (env.clock (k + 1)) img.fileName true)
                  (resolveImage env img)]) k₂).1,
             img₂ :: (handleLoop env opts pc rest
                (calls ++ [postOptions env opts img.fileName
                  (genToken env opts (env.clock k) (env.clock (k + 1)) img.fileName true)
                  (resolveImage env img)]) k₂).2.1,
             (handleLoop env opts pc rest
                (calls ++ [postOptions env opts img.fileName
                  (genToken env opts (env.clock k) (env.clock (k + 1)) img.fileName true)
                  (resolveImage env img)]) k₂).2.2.1,
             (handleLoop env opts pc rest
                (calls ++ [postOptions env opts img.fileName
                  (genToken env opts (env.clock k) (env.clock (k + 1)) img.fileName true)
                  (resolveImage env img)]) k₂).2.2.2)
          | .error _ =>
            (.thrown (env.translate "SERVER_ERROR"), img :: rest,
             calls ++ [postOptions env opts img.fileName
               (genToken env opts (env.clock k) (env.clock (k + 1)) img.fileName true)
               (resolveImage env img)], k + 2)
      else
        ((handleLoop env opts pc rest calls k).1,
         img :: (handleLoop env opts pc rest calls k).2.1,
         (handleLoop env opts pc rest calls k).2.2.1,
         (handleLoop env opts pc rest calls k).2.2.2) := by
  rfl

/-! ## Claim C2 -/

/-- Claim C2, evaluated at the failing input: an item that has a file name
    and a base64 payload but no buffer is skipped by the guard of line 79
    (which requires a buffer), so it is never decoded and never uploaded:
    the batch finishes with the item untouched and no transport request
    attempted.  This refutes the claim that such an item is decoded and
    uploaded, and exposes the decoding branch of lines 86-88 as
    unreachable. -/
theorem c2_theorem :
    handle envOk (some testConfig) [imgBase64] = (.returnedCtx, [imgBase64], [], 0) := by
  rfl

/-! ## Claim C3 -/

/-- Claim C3: the payload minted for an upload-scoped token has exactly one
    permission entry, whose path joins the file prefix to the configured base
    path and the backslash-normalised item name, whose method set is exactly
    POST, and which has no query field; the payload minted for a
    retrieval-scoped token has exactly one permission entry with method set
    exactly GET and a query mapping built from defaultOptions parsed as
    urlencoded pairs. -/
theorem c3_theorem (opts : IGofletConfig) (t1 t2 : Nat) (f : String) :
    ((mkJwtPayload opts t1 t2 f true).permissions.length = 1
      ∧ (mkJwtPayload opts t1 t2 f true).permissions =
          [{ path := replaceBackslashes (pathJoin ["/file/", opts.path, replaceBackslashes f])
             methods := ["POST"]
             query := none }])
    ∧ (mkJwtPayload opts t1 t2 f false).permissions.length = 1
    ∧ (mkJwtPayload opts t1 t2 f false).permissions =
        [{ path := replaceBackslashes (pathJoin ["/api/image/", opts.path, replaceBackslashes f])
           methods := ["GET"]
           query := some (objFromPairs (parseSearchParams opts.defaultOptions)) }] :=
  ⟨⟨rfl, rfl⟩, rfl, rfl⟩

/-! ## Claim C8 -/

/-- Claim C8, refuted: the two timestamp fields come from two separate reads
    of the clock (lines 17 and 18 both call the current-time primitive), so
    when the reads straddle a second boundary the issued-at and not-before
    fields differ. -/
theorem c8_counterexample :
    (mkJwtPayload testConfig 1999 2000 "a.png" true).iat
      ≠ (mkJwtPayload testConfig 1999 2000 "a.png" true).nbf := by
  decide

/-- Claim C8, amended: issued-at is the floor of the first clock read in
    seconds and not-before the floor of the second (separate) read, and the
    two fields agree whenever both reads fall within the same second. -/
theorem c8_theorem (opts : IGofletConfig) (t1 t2 : Nat) (f : String) (up : Bool) :
    (mkJwtPayload opts t1 t2 f up).iat = t1 / 1000
    ∧ (mkJwtPayload opts t1 t2 f up).nbf = t2 / 1000
    ∧ (t1 / 1000 = t2 / 1000 →
        (mkJwtPayload opts t1 t2 f up).iat = (mkJwtPayload opts t1 t2 f up).nbf) :=
  ⟨rfl, rfl, fun h => h⟩

/-- Witness for the amended claim C8 at two concrete reads inside the same
    second. -/
theorem c8_witness :
    (mkJwtPayload testConfig 1700000000123 1700000000456 "a.png" true).iat
      = (mkJwtPayload testConfig 1700000000123 1700000000456 "a.png" true).nbf :=
  (c8_theorem testConfig 1700000000123 1700000000456 "a.png" true).2.2 (by decide)

/-! ## Claim C4 -/

/-- When the signing primitive always fails, the loop returns the literal
    false at its first eligible item: no item is mutated and no transport
    request is ever attempted. -/
lemma handleLoop_allSignFail (env : Env) (opts : IGofletConfig) (pc : String)
    (hsign : ∀ p s hd a, env.sign p s hd a = none) :
    ∀ (imgs : List Img) (calls : List ReqOptions) (k : Nat),
      (∃ i ∈ imgs, ((i.fileName != "") && i.buffer.isSome) = true) →
      handleLoop env opts pc imgs calls k = (.returnedFalse, imgs, calls, k + 2) := by
  intro imgs
  induction imgs with
  | nil => intro calls k h; simp at h
  | cons img rest ih =>
    intro calls k h
    rw [handleLoop_cons]
    by_cases he : ((img.fileName != "") && img.buffer.isSome) = true
    · rw [if_pos he]
      have htok : genToken env opts (env.clock k) (env.clock (k + 1)) img.fileName true = "" := by
        simp only [genToken, hsign]
      rw [if_pos htok]
    · rw [if_neg he]
      have hrest : ∃ i ∈ rest, ((i.fileName != "") && i.buffer.isSome) = true := by
        rcases h with ⟨i, hi, hp⟩
        rcases List.mem_cons.mp hi with rfl | hmem
        · exact absurd hp he
        · exact ⟨i, hmem, hp⟩
      rw [ih calls k hrest]

/-- Claim C4: whenever the signing primitive fails, generateJWT never raises
    (it is a total function) and yields the empty failure token; and when
    every signing attempt fails and the batch holds at least one eligible
    item, handle returns the literal false with every item untouched and no
    transport request attempted. -/
theorem c4_theorem (env : Env) (opts : IGofletConfig) (imgs : List Img)
    (hsign : ∀ p s hd a, env.sign p s hd a = none)
    (hex : ∃ i ∈ imgs, ((i.fileName != "") && i.buffer.isSome) = true) :
    (∀ (t1 t2 : Nat) (f : String) (up : Bool), genToken env opts t1 t2 f up = "")
    ∧ handle env (some opts) imgs = (.returnedFalse, imgs, [], 2) := by
  constructor
  · intro t1 t2 f up
    simp only [genToken, hsign]
  · show handleLoop env opts (canonBasePath opts.path) imgs [] 0 = _
    exact handleLoop_allSignFail env opts _ hsign imgs [] 0 hex

/-- Witness for claim C4 at a concrete always-failing signer and a one-item
    batch. -/
theorem c4_witness :
    handle envSignFail (some testConfig) [imgA] = (.returnedFalse, [imgA], [], 2) :=
  (c4_theorem envSignFail testConfig [imgA] (fun _ _ _ _ => rfl)
    ⟨imgA, List.mem_singleton.mpr rfl, by decide⟩).2

/-! ## Claim C1 -/

/-- Claim C1, refuted at a concrete batch of three items where the second
    one receives a 400 response with body error field "bad signature": the
    operation aborts, but the error it carries is the generic translated
    server-error message, not the server-supplied one, because the catch of
    lines 119-122 re-throws every interpretation error uniformly. -/
theorem c1_counterexample :
    (handle env400 (some testConfig) [imgA, imgB, imgC]).1 = .thrown "SERVER_ERROR"
    ∧ "SERVER_ERROR" ≠ "bad signature" :=
  ⟨rfl, by decide⟩

/-- Claim C1, amended: on a 400 response the interpretation step of lines
    103-105 raises an error carrying the server-supplied error field when
    present and nonempty (the generic translated authentication-failure
    message when absent), but the enclosing catch of lines 119-122 replaces
    it, so the batch aborts carrying the generic translated server-error
    message in every case. -/
theorem c1_theorem (env : Env) (opts : IGofletConfig) (pc : String) (img : Img)
    (rest : List Img) (calls : List ReqOptions) (k : Nat) (tok : String) (res : Response)
    (helig : ((img.fileName != "") && img.buffer.isSome) = true)
    (htok : genToken env opts (env.clock k) (env.clock (k + 1)) img.fileName true = tok)
    (htokne : tok ≠ "")
    (hres : env.request (postOptions env opts img.fileName tok (resolveImage env img)) = .ok res)
    (hstatus : res.statusCode = 400) :
    (∀ e : String, jsonParse res.body = .ok (some e) → e ≠ "" →
      interpretResponse env opts pc (k + 2) res img = .error (.thrownMsg e))
    ∧ (jsonParse res.body = .ok none →
      interpretResponse env opts pc (k + 2) res img
        = .error (.thrownMsg (env.translate "AUTH_FAILED")))
    ∧ handleLoop env opts pc (img :: rest) calls k
        = (.thrown (env.translate "SERVER_ERROR"), img :: rest,
           calls ++ [postOptions env opts img.fileName tok (resolveImage env img)], k + 2) := by
  refine ⟨?_, ?_, ?_⟩
  · intro e hp hne
    unfold interpretResponse
    rw [if_pos hstatus, hp]
    simp [jsOrElse, hne]
  · intro hp
    unfold interpretResponse
    rw [if_pos hstatus, hp]
    rfl
  · rw [handleLoop_cons, if_pos helig, htok, if_neg htokne]
    have htr : transportResult env (postOptions env opts img.fileName tok (resolveImage env img))
        = res := by
      unfold transportResult
      rw [hres]
    rw [htr]
    have hie : ∃ ie, interpretResponse env opts pc (k + 2) res img = .error ie := by
      unfold interpretResponse
      rw [if_pos hstatus]
      cases jsonParse res.body with
      | fail => exact ⟨_, rfl⟩
      | ok e => exact ⟨_, rfl⟩
    rcases hie with ⟨ie, hie⟩
    rw [hie]

/-- Witness for the amended claim C1: the inner interpretation of the 400
    response carries the server-supplied message, and the surfaced abort
    carries the generic server-error message. -/
theorem c1_witness :
    interpretResponse env400 testConfig "imgs" 2
        { statusCode := 400, body := .str (.ok (some "bad signature")) } imgB
      = .error (.thrownMsg "bad signature")
    ∧ handleLoop env400 testConfig "imgs" [imgB] [] 0
      = (.thrown "SERVER_ERROR", [imgB],
         [postOptions env400 testConfig "b.png" "tok" (some [2])], 2) :=
  ⟨(c1_theorem env400 testConfig "imgs" imgB [] [] 0 "tok"
      { statusCode := 400, body := .str (.ok (some "bad signature")) }
      (by decide) rfl (by decide) rfl rfl).1 "bad signature" rfl (by decide),
   (c1_theorem env400 testConfig "imgs" imgB [] [] 0 "tok"
      { statusCode := 400, body := .str (.ok (some "bad signature")) }
      (by decide) rfl (by decide) rfl rfl).2.2⟩

/-! ## Claim C5 -/

/-- Congruence of genToken in the environment: it reads only the signer. -/
lemma genToken_congr (env env₂ : Env) (hsign : env₂.sign = env.sign)
    (opts : IGofletConfig) (t1 t2 : Nat) (f : String) (up : Bool) :
    genToken env₂ opts t1 t2 f up = genToken env opts t1 t2 f up := by
  unfold genToken
  rw [hsign]

/-- Congruence of postOptions in the environment: it reads only the MIME
    lookup. -/
lemma postOptions_congr (env env₂ : Env) (hmime : env₂.mimeLookup = env.mimeLookup)
    (opts : IGofletConfig) (f tok : String) (image : Option (List Nat)) :
    postOptions env₂ opts f tok image = postOptions env opts f tok image := by
  unfold postOptions
  rw [hmime]

/-- An item whose buffer is present resolves to that buffer verbatim; the
    decoding branch is not taken. -/
lemma resolveImage_of_buffer (env : Env) (img : Img) (h : img.buffer.isSome = true) :
    resolveImage env img = img.buffer := by
  cases hb : img.buffer with
  | none => rw [hb] at h; simp at h
  | some b => simp [resolveImage, hb]

/-- Claim C5, refuted at a concrete run whose transport raises: the batch
    aborts, but the abort carries the generic server-error message, not the
    generic authorization-failure message (the synthetic object body built
    by the catch of lines 92-99 does not survive JSON parsing, and the
    interpretation catch replaces every inner error). -/
theorem c5_counterexample :
    (handle envErr (some testConfig) [imgA]).1 = .thrown "SERVER_ERROR"
    ∧ "SERVER_ERROR" ≠ "AUTH_FAILED" :=
  ⟨rfl, by decide⟩

/-- Claim C5, amended: a raised transport exception is caught and mapped to
    a synthetic 400 response with an object body, whose interpretation ends
    in an abort carrying the generic translated server-error message; this
    final outcome is identical to that of a gateway 400 response whose
    parseable body has no error field, as witnessed by two runs that differ
    only in the transport. -/
theorem c5_theorem (env env₂ : Env) (opts : IGofletConfig) (pc : String) (img : Img)
    (rest : List Img) (calls : List ReqOptions) (k : Nat) (tok : String) (req : ReqOptions)
    (err : String)
    (hsign : env₂.sign = env.sign) (hclock : env₂.clock = env.clock)
    (htrans : env₂.translate = env.translate) (hmime : env₂.mimeLookup = env.mimeLookup)
    (helig : ((img.fileName != "") && img.buffer.isSome) = true)
    (htok : genToken env opts (env.clock k) (env.clock (k + 1)) img.fileName true = tok)
    (htokne : tok ≠ "")
    (hreq : req = postOptions env opts img.fileName tok (resolveImage env img))
    (h1 : env.request req = .error err)
    (h2 : env₂.request req = .ok { statusCode := 400, body := .str (.ok none) }) :
    handleLoop env opts pc (img :: rest) calls k
      = (.thrown (env.translate "SERVER_ERROR"), img :: rest, calls ++ [req], k + 2)
    ∧ handleLoop env₂ opts pc (img :: rest) calls k
      = (.thrown (env.translate "SERVER_ERROR"), img :: rest, calls ++ [req], k + 2) := by
  have hbuf : img.buffer.isSome = true := by
    have h := helig
    simp only [Bool.and_eq_true] at h
    exact h.2
  constructor
  · rw [handleLoop_cons, if_pos helig, htok, if_neg htokne, ← hreq]
    have htr : transportResult env req
        = { statusCode := 400, body := .errObj (env.translate "AUTH_FAILED") err } := by
      unfold transportResult
      rw [h1]
    rw [htr]
    have hie : interpretResponse env opts pc (k + 2)
        { statusCode := 400, body := .errObj (env.translate "AUTH_FAILED") err } img
        = .error .parseError := by
      unfold interpretResponse
      rfl
    rw [hie]
  · have helig₂ := helig
    rw [handleLoop_cons, if_pos helig₂]
    have htok₂ : genToken env₂ opts (env₂.clock k) (env₂.clock (k + 1)) img.fileName true
        = tok := by
      rw [genToken_congr env env₂ hsign, hclock, htok]
    rw [htok₂, if_neg htokne]
    have hreq₂ : postOptions env₂ opts img.fileName tok (resolveImage env₂ img) = req := by
      rw [postOptions_congr env env₂ hmime, resolveImage_of_buffer env₂ img hbuf,
        ← resolveImage_of_buffer env img hbuf, hreq]
    rw [hreq₂]
    have htr₂ : transportResult env₂ req
        = { statusCode := 400, body := .str (.ok none) } := by
      unfold transportResult
      rw [h2]
    rw [htr₂]
    have hie₂ : interpretResponse env₂ opts pc (k + 2)
        { statusCode := 400, body := .str (.ok none) } img
        = .error (.thrownMsg (env₂.translate "AUTH_FAILED")) := by
      unfold interpretResponse
      rfl
    rw [hie₂, htrans]

/-- Witness for the amended claim C5 at two concrete environments, one whose
    transport raises and one answering 400 with no error field: both runs
    abort identically with the generic server-error message. -/
theorem c5_witness :
    handleLoop envErr testConfig "imgs" [imgA] [] 0
      = (.thrown "SERVER_ERROR", [imgA],
         [postOptions envErr testConfig "a.png" "tok" (some [1])], 2)
    ∧ handleLoop env400none testConfig "imgs" [imgA] [] 0
      = (.thrown "SERVER_ERROR", [imgA],
         [postOptions envErr testConfig "a.png" "tok" (some [1])], 2) :=
  c5_theorem envErr env400none testConfig "imgs" imgA [] [] 0 "tok"
    (postOptions envErr testConfig "a.png" "tok" (some [1])) "ECONNRESET"
    rfl rfl rfl rfl (by decide) rfl (by decide) rfl rfl rfl

/-! ## Claim C6 -/

/-- Claim C6: when the transport answers 201 for an eligible item, the item
    is finalised with both payload fields cleared and its retrieval URL set
    to the endpoint, the image route, the canonical base path and the
    backslash-normalised file name, followed by a question mark and the
    serialised query built from defaultOptions with the token entry set
    (overwriting any existing token pair) to a freshly generated
    retrieval-scoped token. -/
theorem c6_theorem (env : Env) (opts : IGofletConfig) (img : Img) (rest : List Img)
    (calls : List ReqOptions) (k : Nat) (tok : String) (res : Response)
    (helig : ((img.fileName != "") && img.buffer.isSome) = true)
    (htok : genToken env opts (env.clock k) (env.clock (k + 1)) img.fileName true = tok)
    (htokne : tok ≠ "")
    (hres : env.request (postOptions env opts img.fileName tok (resolveImage env img)) = .ok res)
    (hstatus : res.statusCode = 201) :
    (handleLoop env opts (canonBasePath opts.path) (img :: rest) calls k).2.1.head?
      = some { fileName := img.fileName, buffer := none, base64Image := none,
               imgUrl := some (opts.endpoint ++ "/api/image/" ++ canonBasePath opts.path ++ "/"
                 ++ replaceBackslashes img.fileName ++ "?"
                 ++ searchParamsToString (searchParamsSet (parseSearchParams opts.defaultOptions)
                      "token"
                      (genToken env opts (env.clock (k + 2)) (env.clock (k + 3))
                        img.fileName false))) } := by
  rw [handleLoop_cons, if_pos helig, htok, if_neg htokne]
  have htr : transportResult env (postOptions env opts img.fileName tok (resolveImage env img))
      = res := by
    unfold transportResult
    rw [hres]
  rw [htr]
  have hok : interpretResponse env opts (canonBasePath opts.path) (k + 2) res img
      = .ok ({ fileName := img.fileName, buffer := none, base64Image := none,
               imgUrl := some (opts.endpoint ++ "/api/image/" ++ canonBasePath opts.path ++ "/"
                 ++ replaceBackslashes img.fileName ++ "?"
                 ++ searchParamsToString (searchParamsSet (parseSearchParams opts.defaultOptions)
                      "token"
                      (genToken env opts (env.clock (k + 2)) (env.clock (k + 3))
                        img.fileName false))) }, k + 4) := by
    unfold interpretResponse
    rw [hstatus]
    rfl
  rw [hok]
  rfl

/-- Witness for claim C6 at a concrete environment whose transport answers
    201: the single item ends finalised with the expected retrieval URL. -/
theorem c6_witness :
    (handleLoop envOk testConfig (canonBasePath testConfig.path) [imgA] [] 0).2.1.head?
      = some { fileName := "a.png", buffer := none, base64Image := none,
               imgUrl := some "http://e/api/image/imgs/a.png?w=1&token=tok" } :=
  c6_theorem envOk testConfig imgA [] [] 0 "tok" { statusCode := 201, body := .str .fail }
    (by decide) rfl (by decide) rfl rfl

/-! ## Claim C7 -/

/-- Claim C7: the loop processes items strictly in order.  First conjunct:
    when the interpretation of the head item fails, the batch terminates
    carrying the generic server-error message, the failing item is left
    unmodified, no later item is attempted (the attempted-request list grows
    by exactly the one request of the failing item), and the tail items are
    returned untouched.  Second conjunct: when the head item succeeds, its
    mutated form is kept in the final item list whatever the rest of the
    batch later does (no rollback), and the loop continues with exactly the
    state produced by the head item. -/
theorem c7_theorem (env : Env) (opts : IGofletConfig) (pc : String) (img : Img)
    (rest : List Img) (calls : List ReqOptions) (k : Nat) (tok : String)
    (helig : ((img.fileName != "") && img.buffer.isSome) = true)
    (htok : genToken env opts (env.clock k) (env.clock (k + 1)) img.fileName true = tok)
    (htokne : tok ≠ "") :
    (∀ ie : InnerErr,
      interpretResponse env opts pc (k + 2)
          (transportResult env (postOptions env opts img.fileName tok (resolveImage env img)))
          img = .error ie →
      handleLoop env opts pc (img :: rest) calls k
        = (.thrown (env.translate "SERVER_ERROR"), img :: rest,
           calls ++ [postOptions env opts img.fileName tok (resolveImage env img)], k + 2))
    ∧ (∀ (img₂ : Img) (k₂ : Nat),
      interpretResponse env opts pc (k + 2)
          (transportResult env (postOptions env opts img.fileName tok (resolveImage env img)))
          img = .ok (img₂, k₂) →
      handleLoop env opts pc (img :: rest) calls k
        = ((handleLoop env opts pc rest
              (calls ++ [postOptions env opts img.fileName tok (resolveImage env img)]) k₂).1,
           img₂ :: (handleLoop env opts pc rest
              (calls ++ [postOptions env opts img.fileName tok (resolveImage env img)]) k₂).2.1,
           (handleLoop env opts pc rest
              (calls ++ [postOptions env opts img.fileName tok (resolveImage env img)]) k₂).2.2.1,
           (handleLoop env opts pc rest
              (calls ++ [postOptions env opts img.fileName tok (resolveImage env img)]) k₂).2.2.2)) := by
  constructor
  · intro ie hie
    rw [handleLoop_cons, if_pos helig, htok, if_neg htokne, hie]
  · intro img₂ k₂ hok
    rw [handleLoop_cons, if_pos helig, htok, if_neg htokne, hok]

/-- Witness for claim C7: a failing head item aborts with the tail item
    untouched and unattempted, and a succeeding head item keeps its mutation
    in the final list. -/
theorem c7_witness :
    handleLoop env400 testConfig "imgs" [imgB, imgC] [] 0
      = (.thrown "SERVER_ERROR", [imgB, imgC],
         [postOptions env400 testConfig "b.png" "tok" (some [2])], 2)
    ∧ handleLoop envOk testConfig "imgs" [imgA] [] 0
      = (.returnedCtx,
         [{ fileName := "a.png", buffer := none, base64Image := none,
            imgUrl := some "http://e/api/image/imgs/a.png?w=1&token=tok" }],
         [postOptions envOk testConfig "a.png" "tok" (some [1])], 4) :=
  ⟨(c7_theorem env400 testConfig "imgs" imgB [imgC] [] 0 "tok"
      (by decide) rfl (by decide)).1 (.thrownMsg "bad signature") rfl,
   (c7_theorem envOk testConfig "imgs" imgA [] [] 0 "tok"
      (by decide) rfl (by decide)).2
     { fileName := "a.png", buffer := none, base64Image := none,
       imgUrl := some "http://e/api/image/imgs/a.png?w=1&token=tok" } 4 rfl⟩

/-! ## Claim C10 -/

/-- Claim C10: when the upload of an item succeeds with 201 but the signing
    of its retrieval token fails (the generated retrieval token is the empty
    failure sentinel), the batch does not abort: the item is still finalised
    with both payload fields cleared and a retrieval URL whose token query
    entry is the empty string, and the loop continues into the remaining
    items. -/
theorem c10_theorem (env : Env) (opts : IGofletConfig) (pc : String) (img : Img)
    (rest : List Img) (calls : List ReqOptions) (k : Nat) (tok : String) (res : Response)
    (helig : ((img.fileName != "") && img.buffer.isSome) = true)
    (htok : genToken env opts (env.clock k) (env.clock (k + 1)) img.fileName true = tok)
    (htokne : tok ≠ "")
    (hres : env.request (postOptions env opts img.fileName tok (resolveImage env img)) = .ok res)
    (hstatus : res.statusCode = 201)
    (hvisit : genToken env opts (env.clock (k + 2)) (env.clock (k + 3)) img.fileName false = "") :
    handleLoop env opts pc (img :: rest) calls k
      = ((handleLoop env opts pc rest
            (calls ++ [postOptions env opts img.fileName tok (resolveImage env img)]) (k + 4)).1,
         { fileName := img.fileName, buffer := none, base64Image := none,
           imgUrl := some (opts.endpoint ++ "/api/image/" ++ pc ++ "/"
             ++ replaceBackslashes img.fileName ++ "?"
             ++ searchParamsToString (searchParamsSet (parseSearchParams opts.defaultOptions)
                  "token" "")) }
           :: (handleLoop env opts pc rest
            (calls ++ [postOptions env opts img.fileName tok (resolveImage env img)]) (k + 4)).2.1,
         (handleLoop env opts pc rest
            (calls ++ [postOptions env opts img.fileName tok (resolveImage env img)]) (k + 4)).2.2.1,
         (handleLoop env opts pc rest
            (calls ++ [postOptions env opts img.fileName tok (resolveImage env img)]) (k + 4)).2.2.2) := by
  rw [handleLoop_cons, if_pos helig, htok, if_neg htokne]
  have htr : transportResult env (postOptions env opts img.fileName tok (resolveImage env img))
      = res := by
    unfold transportResult
    rw [hres]
  rw [htr]
  have hok : interpretResponse env opts pc (k + 2) res img
      = .ok ({ fileName := img.fileName, buffer := none, base64Image := none,
               imgUrl := some (opts.endpoint ++ "/api/image/" ++ pc ++ "/"
                 ++ replaceBackslashes img.fileName ++ "?"
                 ++ searchParamsToString (searchParamsSet (parseSearchParams opts.defaultOptions)
                      "token" "")) }, k + 4) := by
    unfold interpretResponse
    rw [hstatus, if_neg (by decide), if_pos rfl]
    simp only [generateJWT]
    have e1 : k + 2 + 1 = k + 3 := rfl
    rw [e1, hvisit]
  rw [hok]

/-- Witness for claim C10 at a concrete environment whose signer succeeds
    for upload payloads and fails for retrieval payloads: the single item
    ends finalised with an empty token in its retrieval URL and the batch
    does not abort. -/
theorem c10_witness :
    handleLoop envRetrieveFail testConfig "imgs" [imgA] [] 0
      = (.returnedCtx,
         [{ fileName := "a.png", buffer := none, base64Image := none,
            imgUrl := some "http://e/api/image/imgs/a.png?w=1&token=" }],
         [postOptions envRetrieveFail testConfig "a.png" "uptok" (some [1])], 4) :=
  c10_theorem envRetrieveFail testConfig "imgs" imgA [] [] 0 "uptok"
    { statusCode := 201, body := .str .fail }
    (by decide) rfl (by decide) rfl rfl rfl

/-! ## Claim C9 -/

/-- Membership is preserved backwards through the leading-slash strip. -/
lemma mem_of_mem_stripLeadSlash {c : Char} {l : List Char}
    (h : c ∈ stripLeadSlash l) : c ∈ l := by
  cases l with
  | nil => exact h
  | cons x xs =>
    by_cases hx : x = '/'
    · rw [stripLeadSlash, if_pos hx] at h
      exact List.mem_cons_of_mem _ h
    · rwa [stripLeadSlash, if_neg hx] at h

/-- Membership is preserved backwards through the trailing-slash strip. -/
lemma mem_of_mem_stripTrailSlash : ∀ (l : List Char), ∀ c ∈ stripTrailSlash l, c ∈ l := by
  intro l
  induction l with
  | nil => intro c h; exact h
  | cons x xs ih =>
    intro c h
    cases xs with
    | nil =>
      simp only [stripTrailSlash] at h
      split at h
      · simp at h
      · exact h
    | cons y ys =>
      simp only [stripTrailSlash] at h
      rcases List.mem_cons.mp h with h1 | h2
      · simp [h1]
      · exact List.mem_cons_of_mem _ (ih c h2)

/-- The global backslash replacement leaves no backslash in its output. -/
lemma backslash_not_mem_replaceBSL (l : List Char) : '\\' ∉ replaceBSL l := by
  intro hmem
  rcases List.mem_map.mp hmem with ⟨c, _, hc⟩
  by_cases h : c = '\\'
  · rw [if_pos h] at hc
    exact absurd hc (by decide)
  · rw [if_neg h] at hc
    exact h hc

/-- The backslash replacement is the identity on backslash-free input. -/
lemma replaceBSL_eq_self : ∀ (l : List Char), '\\' ∉ l → replaceBSL l = l := by
  intro l
  induction l with
  | nil => intro _; rfl
  | cons x xs ih =>
    intro h
    have hx : x ≠ '\\' := fun hh => h (by simp [hh])
    have hxs : '\\' ∉ xs := fun hm => h (List.mem_cons_of_mem _ hm)
    show (if x = '\\' then '/' else x) :: replaceBSL xs = x :: xs
    rw [if_neg hx, ih hxs]

/-- Stripping the head slash of a list whose first two characters are not
    both slashes yields a list that does not start with a slash. -/
lemma stripLeadSlash_head_ne (l : List Char) (h : l.take 2 ≠ ['/', '/']) :
    (stripLeadSlash l).head? ≠ some '/' := by
  cases l with
  | nil => simp [stripLeadSlash]
  | cons x xs =>
    by_cases hx : x = '/'
    · subst hx
      rw [stripLeadSlash, if_pos rfl]
      cases xs with
      | nil => simp
      | cons y ys =>
        have hy : y ≠ '/' := by
          intro hy
          exact h (by simp [hy])
        simp [hy]
    · rw [stripLeadSlash, if_neg hx]
      simp [hx]

/-- Stripping the head slash is the identity on a list that does not start
    with a slash. -/
lemma stripLeadSlash_eq_of_head_ne (l : List Char) (h : l.head? ≠ some '/') :
    stripLeadSlash l = l := by
  cases l with
  | nil => rfl
  | cons x xs =>
    have hx : x ≠ '/' := by
      intro hh
      exact h (by simp [hh])
    rw [stripLeadSlash, if_neg hx]

/-- Stripping the trailing slash preserves not starting with a slash. -/
lemma stripTrailSlash_head_ne (l : List Char) (h : l.head? ≠ some '/') :
    (stripTrailSlash l).head? ≠ some '/' := by
  cases l with
  | nil => simp [stripTrailSlash]
  | cons x xs =>
    have hx : x ≠ '/' := by
      intro hh
      exact h (by simp [hh])
    cases xs with
    | nil => simp [stripTrailSlash, hx]
    | cons y ys => simp [stripTrailSlash, hx]

/-- Stripping the head slash commutes with appending on a nonempty list. -/
lemma stripLeadSlash_append (l m : List Char) (h : l ≠ []) :
    stripLeadSlash (l ++ m) = stripLeadSlash l ++ m := by
  cases l with
  | nil => exact absurd rfl h
  | cons x xs => by_cases hx : x = '/' <;> simp [stripLeadSlash, hx]

/-- The trailing-slash strip is the reverse image of the leading-slash
    strip. -/
lemma stripTrailSlash_eq_reverse : ∀ (l : List Char),
    stripTrailSlash l = (stripLeadSlash l.reverse).reverse := by
  intro l
  induction l with
  | nil => rfl
  | cons x xs ih =>
    cases xs with
    | nil => by_cases hx : x = '/' <;> simp [stripTrailSlash, stripLeadSlash, hx]
    | cons y ys =>
      have hrev : (y :: ys).reverse ≠ [] := by simp
      calc stripTrailSlash (x :: y :: ys)
          = x :: stripTrailSlash (y :: ys) := rfl
        _ = x :: (stripLeadSlash (y :: ys).reverse).reverse := by rw [ih]
        _ = (stripLeadSlash (y :: ys).reverse ++ [x]).reverse := by
              rw [List.reverse_append]
              rfl
        _ = (stripLeadSlash ((y :: ys).reverse ++ [x])).reverse := by
              rw [stripLeadSlash_append _ _ hrev]
        _ = (stripLeadSlash (x :: y :: ys).reverse).reverse := by
              rw [List.reverse_cons x (y :: ys)]

/-- Stripping the head slash preserves the property that the reversed list
    does not begin with two slashes. -/
lemma stripLeadSlash_reverse_take (t : List Char) (h2 : t.reverse.take 2 ≠ ['/', '/']) :
    (stripLeadSlash t).reverse.take 2 ≠ ['/', '/'] := by
  cases t with
  | nil => simp [stripLeadSlash]
  | cons c cs =>
    by_cases hc : c = '/'
    · rw [stripLeadSlash, if_pos hc]
      rcases hcs : cs.reverse with _ | ⟨a, tl⟩
      · simp [hcs]
      · rcases tl with _ | ⟨b, tl2⟩
        · simp [hcs]
        · intro hcontra
          apply h2
          rw [List.reverse_cons, hcs,
            List.take_append_of_le_length (by simp)]
          exact hcontra
    · rw [stripLeadSlash, if_neg hc]
      exact h2

/-- Claim C9, refuted: the base-path normalisation of line 77 strips exactly
    one leading and one trailing slash per application, so applying it again
    to its own output can strip further: it is not idempotent. -/
theorem c9_counterexample :
    canonBasePath (canonBasePath "//img//") ≠ canonBasePath "//img//" := by
  decide

/-- Claim C9, amended: the backslash replacement (the file-name
    canonicalisation) is idempotent; the base-path normalisation never
    leaves a backslash in its output; and the base-path normalisation is
    idempotent on every input whose backslash-normalised form neither starts
    nor ends with two slashes (it strips exactly one slash per end per
    application, so doubled boundary slashes defeat idempotence). -/
theorem c9_theorem (s : String) :
    replaceBackslashes (replaceBackslashes s) = replaceBackslashes s
    ∧ '\\' ∉ (canonBasePath s).data
    ∧ ((replaceBackslashes s).data.take 2 ≠ ['/', '/'] →
       (replaceBackslashes s).data.reverse.take 2 ≠ ['/', '/'] →
       canonBasePath (canonBasePath s) = canonBasePath s) := by
  refine ⟨?_, ?_, ?_⟩
  · show (⟨replaceBSL (replaceBSL s.data)⟩ : String) = ⟨replaceBSL s.data⟩
    exact congrArg String.mk
      (replaceBSL_eq_self _ (backslash_not_mem_replaceBSL s.data))
  · intro hmem
    exact backslash_not_mem_replaceBSL s.data
      (mem_of_mem_stripLeadSlash (mem_of_mem_stripTrailSlash _ _ hmem))
  · intro h1 h2
    have h1' : (replaceBSL s.data).take 2 ≠ ['/', '/'] := h1
    have h2' : (replaceBSL s.data).reverse.take 2 ≠ ['/', '/'] := h2
    show (⟨canonBasePathL (canonBasePathL s.data)⟩ : String) = ⟨canonBasePathL s.data⟩
    refine congrArg String.mk ?_
    have hnb : '\\' ∉ canonBasePathL s.data := fun hm =>
      backslash_not_mem_replaceBSL s.data
        (mem_of_mem_stripLeadSlash (mem_of_mem_stripTrailSlash _ _ hm))
    have hrb : replaceBSL (canonBasePathL s.data) = canonBasePathL s.data :=
      replaceBSL_eq_self _ hnb
    have hxh : (stripLeadSlash (replaceBSL s.data)).head? ≠ some '/' :=
      stripLeadSlash_head_ne _ h1'
    have hrh : (canonBasePathL s.data).head? ≠ some '/' :=
      stripTrailSlash_head_ne _ hxh
    have hlead : stripLeadSlash (canonBasePathL s.data) = canonBasePathL s.data :=
      stripLeadSlash_eq_of_head_ne _ hrh
    have hxrev : (stripLeadSlash (replaceBSL s.data)).reverse.take 2 ≠ ['/', '/'] :=
      stripLeadSlash_reverse_take _ h2'
    have hrrev : (canonBasePathL s.data).reverse.head? ≠ some '/' := by
      show (stripTrailSlash (stripLeadSlash (replaceBSL s.data))).reverse.head? ≠ some '/'
      rw [stripTrailSlash_eq_reverse, List.reverse_reverse]
      exact stripLeadSlash_head_ne _ hxrev
    have htrail : stripTrailSlash (canonBasePathL s.data) = canonBasePathL s.data := by
      rw [stripTrailSlash_eq_reverse, stripLeadSlash_eq_of_head_ne _ hrrev,
        List.reverse_reverse]
    show stripTrailSlash (stripLeadSlash (replaceBSL (canonBasePathL s.data)))
        = canonBasePathL s.data
    rw [hrb, hlead, htrail]

/-- Witness for the amended claim C9 at a concrete mixed-separator path
    without doubled boundary slashes. -/
theorem c9_witness :
    canonBasePath (canonBasePath mixedPath) = canonBasePath mixedPath :=
  (c9_theorem mixedPath).2.2 (by decide) (by decide)

end Goflet
